import Mathlib

/-!
Verification development for the add-on catalog analyzer
(`addon_catalog`: `models.py`, `analysis.py`, `parser.py`, `web.py`,
`webapp.py`).  Python values are shallowly embedded: calendar dates become a
year/month/day structure compared lexicographically (exactly Python
`datetime.date` ordering), Python dicts become insertion-ordered association
lists, Python sets become duplicate-free lists (they are only consumed via
`sorted`), and fallible Python code returns `Except`.
-/

/-- Python exceptions that the embedded code can raise. -/
inductive PyError where
  | nameError (name : String)
  | typeError (msg : String)
  | importError (name : String)
deriving DecidableEq, Repr

/-- `datetime.date`: Python compares dates lexicographically on
(year, month, day). -/
structure PyDate where
  year : Nat
  month : Nat
  day : Nat
deriving DecidableEq, Repr

/-- Boolean strict order on dates, matching Python `date.__lt__`. -/
def PyDate.ltB (a b : PyDate) : Bool :=
  if a.year ≠ b.year then a.year < b.year
  else if a.month ≠ b.month then a.month < b.month
  else a.day < b.day

/-- `models.FileEntry`. -/
structure FileEntry where
  kind : String
  path : Option String
  size : Option Int
deriving DecidableEq, Repr

/-- `models.Addon`: one `<addon>` entry of the catalog. -/
structure Addon where
  id : String
  description : String
  version : String
  available_date : Option PyDate
  expiration_date : Option PyDate
  platforms : List String
  os_versions : List String
  os_types : List String
  architecture : Option String
  install_command : Option String
  files : List FileEntry
deriving DecidableEq, Repr

/-- Boolean strict order on `Char` by code point, as Python compares the
characters of a string. -/
def charLtB (a b : Char) : Bool := a.toNat < b.toNat

/-- Boolean strict lexicographic order on char lists. -/
def charsLtB : List Char → List Char → Bool
  | [], [] => false
  | [], _ :: _ => true
  | _ :: _, [] => false
  | a :: as, b :: bs =>
    if charLtB a b then true
    else if charLtB b a then false
    else charsLtB as bs

/-- Python `str.__lt__`: lexicographic comparison by code point. -/
def strLtB (a b : String) : Bool := charsLtB a.data b.data

/-- Python `a <= b` on strings (total order, so `a <= b` iff `not (b < a)`). -/
def strLeB (a b : String) : Bool := !(strLtB b a)

/-- The tuple `(available_date, version, addon)` that
`analysis._select_latest` is documented to operate on. -/
abbrev LatestTuple := Option PyDate × String × Addon

/-- Truthiness test `candidate_date and (current_date is None or
candidate_date > current_date)` from `analysis.py` line 65: a non-`None`
date is always truthy, and `>` is only evaluated when `current_date` is not
`None`. -/
def laterDateB : Option PyDate → Option PyDate → Bool
  | some _, none => true
  | some cand, some cur => PyDate.ltB cur cand
  | none, _ => false

/-- `analysis._select_latest` (lines 59-69): keep the candidate when its
date is strictly later than the current winner (or the winner has no
date); on equal dates (including both `None`) keep the candidate exactly
when its version string is lexicographically greater; otherwise keep the
current winner. -/
def _select_latest (current candidate : LatestTuple) : LatestTuple :=
  let currentDate := current.1
  let currentVersion := current.2.1
  let candidateDate := candidate.1
  let candidateVersion := candidate.2.1
  if laterDateB candidateDate currentDate then candidate
  else if candidateDate = currentDate ∧ strLtB currentVersion candidateVersion then candidate
  else current

/-- `analysis.CatalogSummary` (lines 13-24).  Mappings are embedded as
insertion-ordered association lists, mirroring Python dict order. -/
structure CatalogSummary where
  total_addons : Nat
  unique_platforms : List String
  unique_os_types : List String
  unique_architectures : List String
  latest_versions : List (String × String)
  latest_version_details : List Addon
  platform_counts : List (String × Nat)
  os_type_counts : List (String × Nat)
  architecture_counts : List (String × Nat)
  monthly_release_counts : List (String × Nat)
deriving DecidableEq, Repr

/-- Python dict update `d[k] = d.get(k, 0) + 1`: an existing key keeps its
position, a new key is appended. -/
def dictIncr (d : List (String × Nat)) (k : String) : List (String × Nat) :=
  if d.any (fun p => p.1 == k) then
    d.map (fun p => if p.1 == k then (p.1, p.2 + 1) else p)
  else d ++ [(k, 1)]

/-- Python `set.add` on a set embedded as a duplicate-free list. -/
def setAdd (s : List String) (x : String) : List String :=
  if s.any (fun y => y == x) then s else s ++ [x]

/-- Zero-pad a numeral to two digits, as `strftime` does for `%m`. -/
def pad2 (n : Nat) : String :=
  if n < 10 then "0" ++ toString n else toString n

/-- Zero-pad a numeral to four digits, as `date.isoformat` does for the
year. -/
def pad4 (n : Nat) : String :=
  if n < 10 then "000" ++ toString n
  else if n < 100 then "00" ++ toString n
  else if n < 1000 then "0" ++ toString n
  else toString n

/-- `available_date.strftime("%Y-%m")` (analysis.py line 99). -/
def strftimeYM (d : PyDate) : String := toString d.year ++ "-" ++ pad2 d.month

/-- `date.isoformat()`: `YYYY-MM-DD`. -/
def isoformat (d : PyDate) : String :=
  pad4 d.year ++ "-" ++ pad2 d.month ++ "-" ++ pad2 d.day

/-- The mutable locals of the loop of `analysis.summarize_addons`
(lines 74-81).  The values of `latest_by_description` are raw `Addon`
objects because line 107 stores `addon` itself, not the
`(available_date, version, addon)` tuple built on line 103. -/
structure AggState where
  platforms : List String
  os_types : List String
  architectures : List String
  platform_counts : List (String × Nat)
  os_type_counts : List (String × Nat)
  architecture_counts : List (String × Nat)
  monthly_counts : List (String × Nat)
  latest_by_description : List (String × Addon)
deriving DecidableEq, Repr

/-- The empty initial state of `summarize_addons` (lines 74-81). -/
def initState : AggState :=
  { platforms := [], os_types := [], architectures := []
    platform_counts := [], os_type_counts := [], architecture_counts := []
    monthly_counts := [], latest_by_description := [] }

/-- Lines 83-100 of the loop body: update the unique sets and the four
live count dicts.  `if addon.architecture:` is a Python truthiness test,
so an architecture of `None` or `""` is skipped; a record with no
available date adds nothing to `monthly_counts`.  All of this is total. -/
def stepSetsAndCounts (st : AggState) (a : Addon) : AggState :=
  let platforms := a.platforms.foldl setAdd st.platforms
  let platform_counts := a.platforms.foldl dictIncr st.platform_counts
  let os_types := a.os_types.foldl setAdd st.os_types
  let os_type_counts := a.os_types.foldl dictIncr st.os_type_counts
  let archPair :=
    match a.architecture with
    | some arch =>
      if arch == "" then (st.architectures, st.architecture_counts)
      else (setAdd st.architectures arch, dictIncr st.architecture_counts arch)
    | none => (st.architectures, st.architecture_counts)
  let monthly :=
    match a.available_date with
    | some d => dictIncr st.monthly_counts (strftimeYM d)
    | none => st.monthly_counts
  { platforms := platforms, os_types := os_types, architectures := archPair.1
    platform_counts := platform_counts, os_type_counts := os_type_counts
    architecture_counts := archPair.2, monthly_counts := monthly
    latest_by_description := st.latest_by_description }

/-- `addon.description or addon.id` (line 102): the display name when it is
non-empty, otherwise the identifier. -/
def groupKey (a : Addon) : String :=
  if a.description == "" then a.id else a.description

/-- Lines 102-107 of the loop body.  On a fresh grouping key, line 107
stores the raw `addon` object.  On a repeated key, line 105 calls
`_select_latest(latest_by_description[key], addon)` with two `Addon`
arguments; `_select_latest` immediately tuple-unpacks its first argument
(line 63), and unpacking a (non-iterable) `Addon` dataclass raises
`TypeError`. -/
def stepLatest (st : AggState) (a : Addon) : Except PyError AggState :=
  if st.latest_by_description.any (fun p => p.1 == groupKey a) then
    .error (.typeError "cannot unpack non-iterable Addon object")
  else
    .ok { st with latest_by_description := st.latest_by_description ++ [(groupKey a, a)] }

/-- Lines 109-124 of the loop body.  Both branches of
`if addon.platforms:` begin by loading the global name `platform_counter`
(lines 110 and 112), which is defined nowhere in `analysis.py` (nor are
`os_counter`, `architecture_counter`, `architecture_value` or
`release_counter`), so this step always raises
`NameError: name platform_counter is not defined` before any further
effect. -/
def stepCounters (_ : AggState) (_ : Addon) : Except PyError AggState :=
  .error (.nameError "platform_counter")

/-- One iteration of `for addon in addon_list:` (lines 83-124). -/
def loopBody (st : AggState) (a : Addon) : Except PyError AggState :=
  match stepLatest (stepSetsAndCounts st a) a with
  | .ok st2 => stepCounters st2 a
  | .error e => .error e

/-- A Python `for` loop over a list where the body can raise: the first
exception aborts the loop and propagates. -/
def pyFoldE (f : AggState → Addon → Except PyError AggState) :
    AggState → List Addon → Except PyError AggState
  | st, [] => .ok st
  | st, a :: rest =>
    match f st a with
    | .ok st2 => pyFoldE f st2 rest
    | .error e => .error e

/-- `analysis.summarize_addons` (lines 72-167).  After the loop, lines
126-133 are pure list/dict constructions; line 135 builds a list
comprehension whose elements call the undefined name `LatestAddonEntry`
(line 136), which is evaluated once per entry of `latest_by_description`,
so it raises `NameError` exactly when that dict is non-empty; when the
dict is empty the comprehension is empty and execution reaches line 147,
`sorted(platform_counter.items(), ...)`, which raises
`NameError: name platform_counter is not defined`.  The summary
construction at lines 154-167 is therefore unreachable: the function
raises on every input. -/
def summarize_addons (addons : List Addon) : Except PyError CatalogSummary :=
  match pyFoldE loopBody initState addons with
  | .error e => .error e
  | .ok st =>
    if st.latest_by_description.isEmpty then
      .error (.nameError "platform_counter")
    else
      .error (.nameError "LatestAddonEntry")

/-- Stable insertion of `x` after all list elements whose sort key is not
greater, the building block of a faithful model of stable Python
`sorted`. -/
def insertAfterEq (le : α → α → Bool) (x : α) : List α → List α
  | [] => [x]
  | y :: ys => if le y x then y :: insertAfterEq le x ys else x :: y :: ys

/-- Python `sorted` with a total boolean `le` key comparison: stable, so
equal keys keep their first-seen order. -/
def pySorted (le : α → α → Bool) (l : List α) : List α :=
  l.foldl (fun acc x => insertAfterEq le x acc) []

/-- The sort key `lambda item: (-item[1], item[0])` used on lines 147-151
and 161-165: descending count first, then ascending label. -/
def countSortLE (x y : String × Nat) : Bool :=
  if x.2 == y.2 then strLeB x.1 y.1 else Nat.blt y.2 x.2

/-- `dict(sorted(counter.items(), key=lambda item: (-item[1], item[0])))`
(lines 147-151, 161-165). -/
def sortCountsDescLabel (l : List (String × Nat)) : List (String × Nat) :=
  pySorted countSortLE l

/-- Python `<=` on `(str, int)` pairs, the comparison used by
`sorted(monthly_counts.items())` with no key (lines 152, 166). -/
def pairLE (x y : String × Nat) : Bool :=
  if x.1 == y.1 then Nat.ble x.2 y.2 else strLtB x.1 y.1

/-- `dict(sorted(monthly_counts.items()))` (lines 152 and 166): ascending
by period key. -/
def sortItemsAsc (l : List (String × Nat)) : List (String × Nat) :=
  pySorted pairLE l

/-- Characters stripped by Python `str.strip()` with no argument (the ASCII
whitespace subset; exotic Unicode whitespace is not modelled, no catalog
value contains it). -/
def isPySpace (c : Char) : Bool :=
  c == ' ' || c == '\t' || c == '\n' || c == '\r' || c.toNat == 11 || c.toNat == 12

/-- Python `str.strip()`. -/
def pyStrip (s : String) : String :=
  String.mk (((s.data.dropWhile isPySpace).reverse.dropWhile isPySpace).reverse)

/-- Split a char list at every occurrence of `c`, Python
`str.split(c)`-style: the empty list of chars yields one empty field. -/
def splitCharList (c : Char) : List Char → List (List Char)
  | [] => [[]]
  | x :: xs =>
    let r := splitCharList c xs
    if x == c then [] :: r
    else
      match r with
      | h :: t => (x :: h) :: t
      | [] => [[x]]

/-- Python `s.split(c)` for a one-character separator. -/
def splitChar (c : Char) (s : String) : List String :=
  (splitCharList c s.data).map String.mk

/-- Numeric value of a digit string. -/
def digitsVal (cs : List Char) : Nat :=
  cs.foldl (fun acc c => acc * 10 + (c.toNat - 48)) 0

/-- Match one numeric field of a `strptime` pattern: all digits, length
between `minLen` and `maxLen`, value between `lo` and `hi` (CPython
compiles `%m` to `1[0-2]|0[1-9]|[1-9]`, `%d` to `3[01]|[12]\d|0[1-9]|[1-9]`,
`%Y` to exactly four digits and `%y` to exactly two digits). -/
def matchNum (s : String) (minLen maxLen lo hi : Nat) : Option Nat :=
  let cs := s.data
  if cs.all Char.isDigit && minLen ≤ cs.length && cs.length ≤ maxLen then
    let v := digitsVal cs
    if lo ≤ v && v ≤ hi then some v else none
  else none

/-- Gregorian month lengths, with the leap-year rule `datetime.date`
validates against. -/
def daysInMonth (y m : Nat) : Nat :=
  if m == 2 then
    if y % 4 == 0 && (y % 100 != 0 || y % 400 == 0) then 29 else 28
  else if m == 4 || m == 6 || m == 9 || m == 11 then 30
  else 31

/-- The `datetime.date` constructor validation performed at the end of
`strptime`: year 1-9999, month 1-12, day within the month.  An invalid
combination raises `ValueError`, which `_parse_date` treats as a
non-match. -/
def mkValidDate (y m d : Nat) : Option PyDate :=
  if 1 ≤ y && y ≤ 9999 && 1 ≤ m && m ≤ 12 && 1 ≤ d && d ≤ daysInMonth y m then
    some { year := y, month := m, day := d }
  else none

/-- `datetime.strptime(s, "%m/%d/%Y").date()` as an `Option`: the whole
string must be month `/` day `/` four-digit year. -/
def strptimeMDY4 (s : String) : Option PyDate :=
  match splitChar '/' s with
  | [ms, ds, ys] => do
    let m ← matchNum ms 1 2 1 12
    let d ← matchNum ds 1 2 1 31
    let y ← matchNum ys 4 4 0 9999
    mkValidDate y m d
  | _ => none

/-- `datetime.strptime(s, "%m/%d/%y").date()`: two-digit years map to
2000-2068 when at most 68 and to 1969-1999 otherwise, per CPython
`_strptime`. -/
def strptimeMDY2 (s : String) : Option PyDate :=
  match splitChar '/' s with
  | [ms, ds, ys] => do
    let m ← matchNum ms 1 2 1 12
    let d ← matchNum ds 1 2 1 31
    let yy ← matchNum ys 2 2 0 99
    let y := if yy ≤ 68 then 2000 + yy else 1900 + yy
    mkValidDate y m d
  | _ => none

/-- `parser.DATE_FORMATS` (line 11). -/
def DATE_FORMATS : List String := ["%m/%d/%Y", "%m/%d/%y"]

/-- Dispatch a format string of `DATE_FORMATS` to its `strptime` model. -/
def strptimeDate (fmt : String) (s : String) : Option PyDate :=
  if fmt == "%m/%d/%Y" then strptimeMDY4 s
  else if fmt == "%m/%d/%y" then strptimeMDY2 s
  else none

/-- The `for fmt in DATE_FORMATS` loop of `parser._parse_date`
(lines 20-24): return the first format that matches, swallowing the
`ValueError` of each failed attempt. -/
def tryFormats : List String → String → Option PyDate
  | [], _ => none
  | f :: fs, s =>
    match strptimeDate f s with
    | some d => some d
    | none => tryFormats fs s

/-- Python `repr` of a string, as interpolated by `f"... {value!r}"`; the
claims only evaluate it on strings free of quotes, backslashes and control
characters, where `repr` just wraps the text in single quotes. -/
def pyReprStr (s : String) : String := "\x27" ++ s ++ "\x27"

/-- `parser._parse_date` (lines 14-25): `None` or a whitespace-only string
yields `None`; otherwise each format of `DATE_FORMATS` is tried in order
and a descriptive `ValueError` message is produced when all fail. -/
def _parse_date (value : Option String) : Except String (Option PyDate) :=
  match value with
  | none => .ok none
  | some v =>
    if v == "" then .ok none
    else
      let v := pyStrip v
      if v == "" then .ok none
      else
        match tryFormats DATE_FORMATS v with
        | some d => .ok (some d)
        | none => .error ("Unrecognized date format: " ++ pyReprStr v)

/-- Python `int(s)` on an already-stripped string: optional sign followed
by digits (digit-grouping underscores are not modelled; no catalog size
uses them). -/
def pyIntOfString (s : String) : Option Int :=
  let digitsOnly : List Char → Option Nat := fun cs =>
    if !cs.isEmpty && cs.all Char.isDigit then some (digitsVal cs) else none
  match s.data with
  | '+' :: rest => (digitsOnly rest).map Int.ofNat
  | '-' :: rest => (digitsOnly rest).map (fun n => -(n : Int))
  | cs => (digitsOnly cs).map Int.ofNat

/-- `parser._parse_int` (lines 28-37): total, an unparsable value becomes
`None`. -/
def _parse_int (value : Option String) : Option Int :=
  match value with
  | none => none
  | some v =>
    if v == "" then none
    else
      let v := pyStrip v
      if v == "" then none
      else pyIntOfString v

/-- An already well-formed XML element tree, the output of
`xml.etree.ElementTree.fromstring`.  `fromstring` itself (the
structural-markup validity gate) is modelled by taking the parsed tree as
input: a document it rejects never reaches `parse_catalog`'s loop. -/
inductive XmlNode where
  | node (tag : String) (attrs : List (String × String)) (text : Option String)
      (children : List XmlNode)

/-- Element tag. -/
def XmlNode.tag : XmlNode → String
  | .node t _ _ _ => t

/-- Element attributes. -/
def XmlNode.attrs : XmlNode → List (String × String)
  | .node _ a _ _ => a

/-- Element text, `None` for an empty or self-closed element. -/
def XmlNode.text : XmlNode → Option String
  | .node _ _ tx _ => tx

/-- Direct child elements. -/
def XmlNode.children : XmlNode → List XmlNode
  | .node _ _ _ ch => ch

/-- `elem.get(key)`: attribute lookup. -/
def XmlNode.getAttr (e : XmlNode) (k : String) : Option String :=
  (e.attrs.find? (fun p => p.1 == k)).map (fun p => p.2)

/-- `elem.findall(tag)` for a single-segment path: direct children with
the tag. -/
def childrenWithTag (e : XmlNode) (t : String) : List XmlNode :=
  e.children.filter (fun c => c.tag == t)

/-- `elem.findall("A/B")`: grandchildren tagged `B` under children tagged
`A`, in document order. -/
def findPath2 (e : XmlNode) (t1 t2 : String) : List XmlNode :=
  (childrenWithTag e t1).flatMap (fun c => childrenWithTag c t2)

/-- `elem.find(tag)`: first direct child with the tag, if any. -/
def findFirst (e : XmlNode) (t : String) : Option XmlNode :=
  (childrenWithTag e t).head?

/-- `elem.findtext(tag)`: the text of the first matching child (with
`None` text read as `""`), or `None` when no child matches. -/
def findtext (e : XmlNode) (t : String) : Option String :=
  (findFirst e t).map (fun el => el.text.getD "")

/-- A chain of Python `or` over optional strings: the first truthy
(present and non-empty) one, else `""`. -/
def firstTruthyStr : List (Option String) → String
  | [] => ""
  | o :: rest =>
    match o with
    | some s => if s == "" then firstTruthyStr rest else s
    | none => firstTruthyStr rest

/-- `"...".strip() or None`: an empty stripped string becomes `None`. -/
def optFromStripped (s : String) : Option String :=
  if s == "" then none else some s

/-- `parser._collect_platform_ids` (lines 40-47). -/
def _collect_platform_ids (addon_elem : XmlNode) : List String :=
  (findPath2 addon_elem "SupportedPlatforms" "platform").filterMap fun pe =>
    let pid := pyStrip (firstTruthyStr [pe.getAttr "ID", pe.text])
    if pid == "" then none else some pid

/-- `parser._collect_os_fields` (lines 50-60): the version and type lists
collected from `OSes/OS` children. -/
def _collect_os_fields (addon_elem : XmlNode) : List String × List String :=
  let oses := findPath2 addon_elem "OSes" "OS"
  let versions := oses.filterMap fun oe =>
    let v := pyStrip (firstTruthyStr [oe.getAttr "Version", oe.text])
    if v == "" then none else some v
  let types := oses.filterMap fun oe =>
    let t := pyStrip ((oe.getAttr "Type").getD "")
    if t == "" then none else some t
  (versions, types)

/-- `parser._collect_files` (lines 63-73). -/
def _collect_files (addon_elem : XmlNode) : List FileEntry :=
  match findFirst addon_elem "files" with
  | none => []
  | some files_elem =>
    files_elem.children.map fun child =>
      { kind := child.tag
        path := optFromStripped (pyStrip (child.text.getD ""))
        size := _parse_int (child.getAttr "size") }

/-- The body of `parse_catalog`'s loop for one `<addon>` element
(lines 82-96).  Only the two `_parse_date` calls can raise; every other
field extraction is total, and a missing attribute simply yields the
dataclass default (`""`, `None` or `[]`).  `AvailableDate` is evaluated
before `ExpirationDate`, matching Python argument order. -/
def parseAddonElem (e : XmlNode) : Except String Addon :=
  match _parse_date (e.getAttr "AvailableDate") with
  | .error msg => .error msg
  | .ok avail =>
    match _parse_date (e.getAttr "ExpirationDate") with
    | .error msg => .error msg
    | .ok expir =>
      .ok { id := pyStrip ((e.getAttr "ID").getD "")
            description := pyStrip ((e.getAttr "Description").getD "")
            version := pyStrip ((e.getAttr "Version").getD "")
            available_date := avail
            expiration_date := expir
            platforms := _collect_platform_ids e
            os_versions := (_collect_os_fields e).1
            os_types := (_collect_os_fields e).2
            architecture := optFromStripped (pyStrip ((findtext e "architecture").getD ""))
            install_command := optFromStripped (pyStrip ((findtext e "install_command").getD ""))
            files := _collect_files e }

/-- `for addon_elem in root.findall("addon")` with append (lines 80-96):
the first parse error aborts and propagates. -/
def parseAddonList : List XmlNode → Except String (List Addon)
  | [] => .ok []
  | e :: rest =>
    match parseAddonElem e with
    | .error msg => .error msg
    | .ok a =>
      match parseAddonList rest with
      | .error msg => .error msg
      | .ok as => .ok (a :: as)

/-- `parser.parse_catalog` (lines 76-97) applied to the already-parsed
document root. -/
def parse_catalog (root : XmlNode) : Except String (List Addon) :=
  parseAddonList (childrenWithTag root "addon")

/-- `True` exactly on the `.ok` constructor. -/
def exceptOkB {ε α : Type} : Except ε α → Bool
  | .ok _ => true
  | .error _ => false

/-- JSON values, the shape `json.dumps` serializes; objects keep Python
dict insertion order.  Serialization to bytes is abstracted away, so
response bodies are compared as JSON values. -/
inductive Json where
  | str (s : String)
  | num (n : Int)
  | null
  | arr (xs : List Json)
  | obj (fields : List (String × Json))

/-- `isoformat() if d else None` as a JSON value. -/
def optDateJson : Option PyDate → Json
  | some d => .str (isoformat d)
  | none => .null

/-- An optional string as a JSON value. -/
def optStrJson : Option String → Json
  | some s => .str s
  | none => .null

/-- One entry of the `latest_version_details` list of
`CatalogSummary.to_dict` (analysis.py lines 33-51); the `files` field is
not serialized. -/
def addonToDict (a : Addon) : Json :=
  .obj [("id", .str a.id),
        ("description", .str a.description),
        ("version", .str a.version),
        ("available_date", optDateJson a.available_date),
        ("expiration_date", optDateJson a.expiration_date),
        ("platforms", .arr (a.platforms.map .str)),
        ("os_versions", .arr (a.os_versions.map .str)),
        ("os_types", .arr (a.os_types.map .str)),
        ("architecture", optStrJson a.architecture),
        ("install_command", optStrJson a.install_command)]

/-- `CatalogSummary.to_dict` (analysis.py lines 26-56), field order as in
the source. -/
def CatalogSummary.to_dict (s : CatalogSummary) : List (String × Json) :=
  [("total_addons", .num (s.total_addons : Int)),
   ("unique_platforms", .arr (s.unique_platforms.map .str)),
   ("unique_os_types", .arr (s.unique_os_types.map .str)),
   ("unique_architectures", .arr (s.unique_architectures.map .str)),
   ("latest_versions", .obj (s.latest_versions.map (fun p => (p.1, .str p.2)))),
   ("latest_version_details", .arr (s.latest_version_details.map addonToDict)),
   ("platform_counts", .obj (s.platform_counts.map (fun p => (p.1, .num (p.2 : Int))))),
   ("os_type_counts", .obj (s.os_type_counts.map (fun p => (p.1, .num (p.2 : Int))))),
   ("architecture_counts", .obj (s.architecture_counts.map (fun p => (p.1, .num (p.2 : Int))))),
   ("monthly_release_counts", .obj (s.monthly_release_counts.map (fun p => (p.1, .num (p.2 : Int)))))]

/-- `__main__.DEFAULT_URL`, also the default of the web app. -/
def DEFAULT_URL : String :=
  "https://ftp.hp.com/pub/tcimages/EasyUpdate/Images/addoncatalog.xml"

/-- A WSGI response body: JSON for the API, plain text for 404/405, and
the rendered dashboard for `/` (HTML templating is abstracted; the
constructor records the pipeline outcome the page is rendered from). -/
inductive Body where
  | jsonBody (j : Json)
  | textBody (s : String)
  | htmlBody (outcome : Except String (CatalogSummary × String))

/-- A WSGI response: the status line `f"{status.value} {status.phrase}"`
split into its parts, the `Content-Type` header, and the body
(`Content-Length`, the byte length of the serialized body, is determined
by the body and not modelled separately). -/
structure WsgiResponse where
  statusCode : Nat
  statusPhrase : String
  contentType : String
  body : Body

/-- Join char lists with a separator character (inverse of
`splitCharList`). -/
def joinChar (c : Char) : List (List Char) → List Char
  | [] => []
  | [l] => l
  | l :: l2 :: ls => l ++ c :: joinChar c (l2 :: ls)

/-- Drop the fragment: `urlparse` cuts the URL at the first `#`. -/
def urlDropFrag (s : List Char) : List Char :=
  (splitCharList '#' s).headD []

/-- `urlparse` path/query split for a relative reference: the path is
what precedes the first `?`, the query what follows it.  CPython steps
deliberately not modelled: scheme detection (impossible when the URL
starts with `/`), netloc parsing (triggered only by a leading `//`, where
`urlsplit` may even raise `ValueError` on unbalanced brackets), and the
WHATWG stripping of tab/CR/LF and of leading/trailing controls — all the
identity on a `PATH_INFO` that is printable ASCII starting with a single
`/`, which is what every theorem using this chain hypothesizes (see
`plainAbsPath` and `urlSafeChar`). -/
def urlSplitPQ (s : List Char) : List Char × List Char :=
  match splitCharList '?' (urlDropFrag s) with
  | [] => ([], [])
  | p :: rest => (p, joinChar '?' rest)

/-- Keep the part of a char list before its first `;`, if any. -/
def cutAtSemi (cs : List Char) : List Char :=
  (splitCharList ';' cs).headD []

/-- `urllib.parse._splitparams`, applied by `urlparse` to the path: drop a
`;params` suffix of the last path segment (a `;` in an earlier segment is
kept). -/
def splitParamsL (p : List Char) : List Char :=
  match (splitCharList '/' p).reverse with
  | [] => []
  | lastSeg :: revInit =>
    if revInit.isEmpty then cutAtSemi lastSeg
    else joinChar '/' revInit.reverse ++ '/' :: cutAtSemi lastSeg

/-- Split a char list at the first `=`, Python `s.split("=", 1)`:
`none` when there is no `=`. -/
def splitFirstEq : List Char → Option (List Char × List Char)
  | [] => none
  | x :: xs =>
    if x == '=' then some ([], xs)
    else (splitFirstEq xs).map (fun p => (x :: p.1, p.2))

/-- `unquote_plus` restricted to the `+ → space` step; percent-decoding is
not modelled, so theorems about the query string hypothesize it is free of
`%`. -/
def plusToSpace (cs : List Char) : List Char :=
  cs.map (fun c => if c == '+' then ' ' else c)

/-- `urllib.parse.parse_qs` flattened to its ordered `(name, value)`
pairs: components are split on `&`; a component without `=` or with an
empty value is dropped (`keep_blank_values` is false). -/
def parse_qs_pairs (qs : String) : List (String × String) :=
  (splitCharList '&' qs.data).filterMap fun comp =>
    match splitFirstEq comp with
    | none => none
    | some (n, v) =>
      if v.isEmpty then none
      else some (String.mk (plusToSpace n), String.mk (plusToSpace v))

/-- `params.get(key, [default])[0]`: the first value bound to `key`, since
`parse_qs` groups values in occurrence order. -/
def getFirstParam (pairs : List (String × String)) (k : String) : Option String :=
  (pairs.find? (fun p => p.1 == k)).map (fun p => p.2)

/-- `f"{path}?{query_string}" if query_string else str(path)`
(web.py line 121). -/
def requestUrlString (path query : String) : String :=
  if query == "" then path else path ++ "?" ++ query

/-- `parsed.path`: the urlparse path of the request line. -/
def requestPath (path query : String) : String :=
  String.mk (splitParamsL (urlSplitPQ (requestUrlString path query).data).1)

/-- `parsed.query`: the urlparse query of the request line. -/
def requestQuery (path query : String) : String :=
  String.mk (urlSplitPQ (requestUrlString path query).data).2

/-- `params.get("url", [DEFAULT_URL])[0]` (web.py line 123): the `url`
query parameter, defaulting to `DEFAULT_URL`. -/
def requestUrlParam (path query : String) : String :=
  (getFirstParam (parse_qs_pairs (requestQuery path query)) "url").getD DEFAULT_URL

/-- The 405 response of web.py lines 117-119. -/
def resp405 : WsgiResponse :=
  { statusCode := 405, statusPhrase := "Method Not Allowed"
    contentType := "text/plain; charset=utf-8", body := .textBody "Method not allowed" }

/-- The 404 response of web.py lines 166-167. -/
def resp404 : WsgiResponse :=
  { statusCode := 404, statusPhrase := "Not Found"
    contentType := "text/plain; charset=utf-8", body := .textBody "Not found" }

/-- The 502 response of web.py lines 128-136: a JSON object of exactly an
`error` message and the `url`. -/
def apiErrResponse (e url : String) : WsgiResponse :=
  { statusCode := 502, statusPhrase := "Bad Gateway"
    contentType := "application/json"
    body := .jsonBody (.obj [("error", .str e), ("url", .str url)]) }

/-- The 200 response of web.py lines 138-146: the summary dict with
`catalog_path` and `url` appended (dict `update` appends fresh keys in
order). -/
def apiOkResponse (s : CatalogSummary) (dest url : String) : WsgiResponse :=
  { statusCode := 200, statusPhrase := "OK"
    contentType := "application/json"
    body := .jsonBody (.obj (s.to_dict ++ [("catalog_path", .str dest), ("url", .str url)])) }

/-- `web._app` (lines 111-167), parametrized by the outcome of
`compute_summary` (which performs network and filesystem I/O and is the
composition fetch → parse → aggregate; the oracle maps the catalog URL to
either the summary and cache path or the stringified exception).  The
method is checked before any URL parsing; then `/api/summary` is matched
before `/`; anything else is 404. -/
def appHandle (compute : String → Except String (CatalogSummary × String))
    (method path query : String) : WsgiResponse :=
  if method != "GET" then resp405
  else if requestPath path query == "/api/summary" then
    match compute (requestUrlParam path query) with
    | .error e => apiErrResponse e (requestUrlParam path query)
    | .ok (s, dest) => apiOkResponse s dest (requestUrlParam path query)
  else if requestPath path query == "/" then
    { statusCode := 200, statusPhrase := "OK"
      contentType := "text/html; charset=utf-8"
      body := .htmlBody (compute (requestUrlParam path query)) }
  else resp404

/-- The top-level names bound by executing `analysis.py`: the
`from __future__`/`typing`/`dataclasses`/`datetime`/`collections`/`models`
imports and the three definitions.  `LatestAddonEntry` is not among them:
no class or assignment in the module creates it. -/
def analysisModuleNames : List String :=
  ["annotations", "dataclass", "date", "Dict", "Iterable", "List", "Mapping",
   "Optional", "Counter", "Addon", "CatalogSummary", "_select_latest",
   "summarize_addons", "__all__"]

/-- `analysis.__all__` (line 170), which advertises `LatestAddonEntry`. -/
def analysisAll : List String :=
  ["CatalogSummary", "LatestAddonEntry", "summarize_addons"]

/-- The names `webapp.py` line 14 imports from `.analysis`. -/
def webappAnalysisImports : List String :=
  ["CatalogSummary", "LatestAddonEntry", "summarize_addons"]

/-- `from M import a, b, c`: each requested name is looked up among the
module's bound names in order; the first missing one raises
`ImportError`. -/
def resolveFromList (moduleNames : List String) : List String → Except PyError Unit
  | [] => .ok ()
  | n :: rest =>
    if moduleNames.any (fun m => m == n) then resolveFromList moduleNames rest
    else .error (.importError n)

/-- The outcome of executing `webapp.py`'s import of `.analysis`
(line 14), the first statement of the module that can fail. -/
def webappImportOutcome : Except PyError Unit :=
  resolveFromList analysisModuleNames webappAnalysisImports

/-- The `"Example"/"1.0.0"/2025-01-01` record of spec §8 and
`test_summarize_addons_identifies_latest_versions`. -/
def rEx1 : Addon :=
  { id := "A-1", description := "Example", version := "1.0.0"
    available_date := some ⟨2025, 1, 1⟩, expiration_date := none, platforms := ["mt440"]
    os_versions := ["Win11-64"], os_types := ["Windows"], architecture := some "x64"
    install_command := none, files := [] }

/-- The `"Example"/"1.1.0"/2025-02-01` record sharing `rEx1`'s grouping
key. -/
def rEx2 : Addon :=
  { rEx1 with id := "A-2", version := "1.1.0"
              available_date := some ⟨2025, 2, 1⟩, platforms := ["t655"] }

/-- A record with every optional dimension absent: no platforms, no OS
types, no architecture, no availability date. -/
def rBare : Addon :=
  { id := "B-1", description := "Bare", version := "1.0"
    available_date := none, expiration_date := none, platforms := []
    os_versions := [], os_types := [], architecture := none
    install_command := none, files := [] }

/-- A dated record (available 2025-05-19). -/
def rDated : Addon :=
  { id := "D-1", description := "Dated", version := "2.0"
    available_date := some ⟨2025, 5, 19⟩, expiration_date := none, platforms := ["mt440"]
    os_versions := [], os_types := ["Windows"], architecture := some "x64"
    install_command := none, files := [] }

/-- First of three records whose platform lists produce the counts
`a:1, b:2, c:2` of spec §8. -/
def rPlatBC1 : Addon :=
  { rBare with id := "P-1", description := "P1", platforms := ["b", "c"] }

/-- Second record with platforms `b` and `c`. -/
def rPlatBC2 : Addon :=
  { rBare with id := "P-2", description := "P2", platforms := ["b", "c"] }

/-- Third record with platform `a` only. -/
def rPlatA : Addon :=
  { rBare with id := "P-3", description := "P3", platforms := ["a"] }

/-- A concrete summary used to exercise the success path of the API
endpoint (the oracle parameter makes `compute_summary`'s outcome an
input). -/
def sampleSummary : CatalogSummary :=
  { total_addons := 2, unique_platforms := ["mt440", "t655"]
    unique_os_types := ["Windows"], unique_architectures := ["x64"]
    latest_versions := [("Example", "1.1.0")], latest_version_details := [rEx2]
    platform_counts := [("mt440", 1), ("t655", 1)], os_type_counts := [("Windows", 2)]
    architecture_counts := [("x64", 2)]
    monthly_release_counts := [("2025-01", 1), ("2025-02", 1)] }

/-- A bare `<addon/>` element: no attributes, no children, no text. -/
def bareAddonElem : XmlNode := .node "addon" [] none []

/-- The record `parse_catalog` builds from `bareAddonElem`: every
optional field takes its dataclass default. -/
def bareAddon : Addon :=
  { id := "", description := "", version := ""
    available_date := none, expiration_date := none, platforms := []
    os_versions := [], os_types := [], architecture := none
    install_command := none, files := [] }

/-- Printable ASCII, no `#` (fragment delimiter) and no `%` (escape
introducer): on such query strings the embedded `urlparse`/`parse_qs`
chain agrees with CPython (which additionally strips control characters
and percent-decodes). -/
def urlSafeChar (c : Char) : Bool :=
  Nat.blt 0x20 c.toNat && Nat.blt c.toNat 0x7f && !(c == '#') && !(c == '%')

/-- Printable ASCII other than space: such characters survive the WHATWG
stripping `urlsplit` applies (which removes every tab/CR/LF and trims
leading/trailing characters below `0x21`). -/
def printableAscii (c : Char) : Bool :=
  Nat.blt 0x20 c.toNat && Nat.blt c.toNat 0x7f

/-- A plain absolute `PATH_INFO`: printable ASCII starting with a single
`/`.  On such a path (with any query appended after `?`) CPython
`urlparse` strips nothing, detects no scheme (first char `/`), parses no
netloc (no leading `//`) and cannot raise, so it computes exactly the
embedded `urlSplitPQ`/`splitParamsL` chain; outside this domain urlparse
may strip characters, split off a netloc, or raise `ValueError`. -/
def plainAbsPath (path : String) : Bool :=
  path.data.all printableAscii &&
  (match path.data with
   | '/' :: '/' :: _ => false
   | '/' :: _ => true
   | _ => false)

/-! Helper lemmas. -/

theorem splitCharList_ne_nil (c : Char) (cs : List Char) : splitCharList c cs ≠ [] := by
  induction cs with
  | nil => simp [splitCharList]
  | cons x xs ih =>
    unfold splitCharList
    by_cases h : (x == c) = true
    · simp [h]
    · simp only [h, if_false, Bool.false_eq_true]
      cases hr : splitCharList c xs with
      | nil => exact absurd hr ih
      | cons a b => simp

theorem splitCharList_no_sep {c : Char} :
    ∀ {cs : List Char}, (∀ x ∈ cs, x ≠ c) → splitCharList c cs = [cs]
  | [], _ => rfl
  | x :: xs, h => by
    have hx : ¬((x == c) = true) := by
      simp only [beq_iff_eq]
      exact h x (List.mem_cons_self x xs)
    have ih : splitCharList c xs = [xs] :=
      splitCharList_no_sep (fun y hy => h y (List.mem_cons_of_mem x hy))
    unfold splitCharList
    simp only [hx, if_false, ih, Bool.false_eq_true]

theorem splitCharList_append_sep {c : Char} :
    ∀ {p : List Char} (q : List Char), (∀ x ∈ p, x ≠ c) →
      splitCharList c (p ++ c :: q) = p :: splitCharList c q
  | [], q, _ => by
    show splitCharList c (c :: q) = [] :: splitCharList c q
    rw [splitCharList]
    simp
  | a :: p, q, h => by
    have ha : ¬((a == c) = true) := by
      simp only [beq_iff_eq]
      exact h a (List.mem_cons_self a p)
    have ih : splitCharList c (p ++ c :: q) = p :: splitCharList c q :=
      splitCharList_append_sep q (fun y hy => h y (List.mem_cons_of_mem a hy))
    show splitCharList c (a :: (p ++ c :: q)) = (a :: p) :: splitCharList c q
    rw [splitCharList]
    simp only [ha, if_false, ih, Bool.false_eq_true]

theorem joinChar_splitCharList (c : Char) : ∀ cs : List Char, joinChar c (splitCharList c cs) = cs
  | [] => rfl
  | x :: xs => by
    have ih := joinChar_splitCharList c xs
    unfold splitCharList
    by_cases h : (x == c) = true
    · have hc : x = c := by simpa using h
      simp only [h, if_true]
      cases hr : splitCharList c xs with
      | nil => exact absurd hr (splitCharList_ne_nil c xs)
      | cons a b =>
        rw [hr] at ih
        simp [joinChar, ih, hc]
    · simp only [h, if_false, Bool.false_eq_true]
      cases hr : splitCharList c xs with
      | nil => exact absurd hr (splitCharList_ne_nil c xs)
      | cons a b =>
        rw [hr] at ih
        cases b with
        | nil => simp [joinChar] at ih ⊢; exact ih
        | cons b1 bs => simp [joinChar] at ih ⊢; exact ih

/-! Theorems for the claims. -/

/-- C1: `summarize_addons` is not total: on every well-typed input list,
the empty list included, it raises `NameError: name platform_counter is
not defined` instead of returning a `CatalogSummary` (lines 110/112 while
processing the first record, line 147 for the empty list). -/
theorem summarize_addons_never_returns (addons : List Addon) :
    summarize_addons addons = Except.error (PyError.nameError "platform_counter") := by
  cases addons with
  | nil => rfl
  | cons a as => rfl

/-- C2: the pure tie-break helper `_select_latest` does pick the
2025-02-01/"1.1.0" tuple over the 2025-01-01/"1.0.0" tuple in either
argument order, but `summarize_addons` on the two corresponding records
(in either input order) raises `NameError` instead of returning a summary
selecting "1.1.0": the fold never reaches a usable result (and line 107
stores raw `Addon`s where `_select_latest` expects tuples). -/
theorem select_latest_rule_vs_summarize_raises :
    _select_latest (some ⟨2025, 1, 1⟩, "1.0.0", rEx1) (some ⟨2025, 2, 1⟩, "1.1.0", rEx2)
        = (some ⟨2025, 2, 1⟩, "1.1.0", rEx2)
  ∧ _select_latest (some ⟨2025, 2, 1⟩, "1.1.0", rEx2) (some ⟨2025, 1, 1⟩, "1.0.0", rEx1)
        = (some ⟨2025, 2, 1⟩, "1.1.0", rEx2)
  ∧ summarize_addons [rEx1, rEx2] = Except.error (PyError.nameError "platform_counter")
  ∧ summarize_addons [rEx2, rEx1] = Except.error (PyError.nameError "platform_counter") :=
  ⟨rfl, rfl, rfl, rfl⟩

/-- C3: on the empty list `summarize_addons` does not return the all-empty
summary; it raises `NameError` at line 147. -/
theorem summarize_addons_empty_raises :
    summarize_addons [] = Except.error (PyError.nameError "platform_counter") := rfl

/-- C4: a record with an empty platform list, empty OS-type list and
absent architecture contributes nothing — not an "unspecified" bucket —
to the live count dicts that the `return` statement would use (lines
83-96), and `summarize_addons` on that record then raises `NameError`
in the dead counter block (lines 109-119) that was meant to add the
`未指定` bucket. -/
theorem empty_dimensions_uncounted_and_raise :
    (stepSetsAndCounts initState rBare).platform_counts = []
  ∧ (stepSetsAndCounts initState rBare).os_type_counts = []
  ∧ (stepSetsAndCounts initState rBare).architecture_counts = []
  ∧ summarize_addons [rBare] = Except.error (PyError.nameError "platform_counter") :=
  ⟨rfl, rfl, rfl, rfl⟩

/-- C5: the reachable release-period dict (lines 98-100) keys dated
records by year-month and skips dateless records entirely (no "unknown"
bucket); the year/"未知" counter of lines 121-124 uses the undefined name
`release_counter`, and `summarize_addons` raises `NameError` before
returning any release distribution. -/
theorem release_period_counting_and_raise :
    (stepSetsAndCounts initState rDated).monthly_counts = [("2025-05", 1)]
  ∧ (stepSetsAndCounts initState rBare).monthly_counts = []
  ∧ summarize_addons [rDated, rBare] = Except.error (PyError.nameError "platform_counter") :=
  ⟨rfl, rfl, rfl⟩

/-- C6: the sort key of lines 147-151/161-165 does order counts by
descending count then ascending label (`a:1, b:2, c:2 ↦ b, c, a`, also on
the counts actually accumulated from three records), and the keyless sort
of lines 152/166 orders the release periods ascending — but
`summarize_addons` on those records raises `NameError` before any sorted
distribution is returned. -/
theorem distribution_sort_orders_and_raise :
    sortCountsDescLabel [("a", 1), ("b", 2), ("c", 2)] = [("b", 2), ("c", 2), ("a", 1)]
  ∧ sortCountsDescLabel
        ((stepSetsAndCounts (stepSetsAndCounts (stepSetsAndCounts initState rPlatBC1)
            rPlatBC2) rPlatA).platform_counts)
        = [("b", 2), ("c", 2), ("a", 1)]
  ∧ sortItemsAsc [("2025-05", 1), ("2024-12", 3)] = [("2024-12", 3), ("2025-05", 1)]
  ∧ summarize_addons [rPlatBC1, rPlatBC2, rPlatA]
        = Except.error (PyError.nameError "platform_counter") :=
  ⟨rfl, rfl, rfl, rfl⟩

/-- C9: `analysis.__all__` advertises `LatestAddonEntry`, but the module
binds no such name, so `webapp.py`'s `from .analysis import CatalogSummary,
LatestAddonEntry, summarize_addons` (line 14) raises `ImportError` before
any request handling; and even past the import, the class-body call
`summarize_addons([])` (line 209) would raise `NameError` at module load
time. -/
theorem webapp_import_always_fails :
    "LatestAddonEntry" ∈ analysisAll
  ∧ "LatestAddonEntry" ∉ analysisModuleNames
  ∧ webappImportOutcome = Except.error (PyError.importError "LatestAddonEntry")
  ∧ summarize_addons [] = Except.error (PyError.nameError "platform_counter") :=
  ⟨by decide, by decide, rfl, rfl⟩

theorem parseAddonElem_ok (e : XmlNode) :
    exceptOkB (parseAddonElem e)
      = (exceptOkB (_parse_date (e.getAttr "AvailableDate"))
         && exceptOkB (_parse_date (e.getAttr "ExpirationDate"))) := by
  unfold parseAddonElem
  cases _parse_date (e.getAttr "AvailableDate") with
  | error m => rfl
  | ok a =>
    cases _parse_date (e.getAttr "ExpirationDate") with
    | error m => rfl
    | ok b => rfl

theorem parseAddonList_ok (l : List XmlNode) :
    exceptOkB (parseAddonList l) = l.all (fun e => exceptOkB (parseAddonElem e)) := by
  induction l with
  | nil => rfl
  | cons e rest ih =>
    rw [List.all_cons, ← ih]
    rw [parseAddonList]
    cases parseAddonElem e with
    | error m => rfl
    | ok a =>
      cases parseAddonList rest with
      | error m => rfl
      | ok as => rfl

/-- C7: `parse_catalog` over a well-formed document tree fails exactly
when some `<addon>` child has an unrecognized date: `_parse_date` accepts
a missing attribute (`None`) and a whitespace-only value as an absent
date, tries `"%m/%d/%Y"` before `"%m/%d/%y"` with the first match
winning, and raises the descriptive `Unrecognized date format` error when
both fail; a fully bare `<addon/>` element parses to the all-defaults
record, so missing optional attributes are never an error.  (The other
structural failure source, `ET.fromstring` on invalid markup, is modelled
as the precondition that a parsed tree exists.) -/
theorem parse_catalog_failure_semantics :
    (_parse_date none = Except.ok none)
  ∧ (∀ s : String, pyStrip s = "" → _parse_date (some s) = Except.ok none)
  ∧ (∀ (s : String) (d : PyDate), strptimeDate "%m/%d/%Y" (pyStrip s) = some d →
        _parse_date (some s) = Except.ok (some d))
  ∧ (∀ (s : String) (d : PyDate), strptimeDate "%m/%d/%Y" (pyStrip s) = none →
        strptimeDate "%m/%d/%y" (pyStrip s) = some d →
        _parse_date (some s) = Except.ok (some d))
  ∧ (∀ s : String, pyStrip s ≠ "" →
        strptimeDate "%m/%d/%Y" (pyStrip s) = none →
        strptimeDate "%m/%d/%y" (pyStrip s) = none →
        _parse_date (some s)
          = Except.error ("Unrecognized date format: " ++ pyReprStr (pyStrip s)))
  ∧ (∀ root : XmlNode, exceptOkB (parse_catalog root)
        = (childrenWithTag root "addon").all
            (fun e => exceptOkB (_parse_date (e.getAttr "AvailableDate"))
                      && exceptOkB (_parse_date (e.getAttr "ExpirationDate"))))
  ∧ (parseAddonElem bareAddonElem = Except.ok bareAddon) := by
  refine ⟨rfl, ?_, ?_, ?_, ?_, ?_, rfl⟩
  · intro s h
    simp only [_parse_date]
    split
    · rfl
    · simp [h]
  · intro s d h1
    simp only [_parse_date]
    split
    · next hs =>
      have hs' : s = "" := by simpa using hs
      subst hs'
      rw [show strptimeDate "%m/%d/%Y" (pyStrip "") = (none : Option PyDate) from rfl] at h1
      exact Option.noConfusion h1
    · by_cases hv : (pyStrip s == "") = true
      · have hv' : pyStrip s = "" := by simpa using hv
        rw [hv'] at h1
        rw [show strptimeDate "%m/%d/%Y" "" = (none : Option PyDate) from rfl] at h1
        exact Option.noConfusion h1
      · have htry : tryFormats DATE_FORMATS (pyStrip s) = some d := by
          unfold DATE_FORMATS tryFormats
          rw [h1]
        simp only [if_neg hv, htry]
  · intro s d h1 h2
    simp only [_parse_date]
    split
    · next hs =>
      have hs' : s = "" := by simpa using hs
      subst hs'
      rw [show strptimeDate "%m/%d/%y" (pyStrip "") = (none : Option PyDate) from rfl] at h2
      exact Option.noConfusion h2
    · by_cases hv : (pyStrip s == "") = true
      · have hv' : pyStrip s = "" := by simpa using hv
        rw [hv'] at h2
        rw [show strptimeDate "%m/%d/%y" "" = (none : Option PyDate) from rfl] at h2
        exact Option.noConfusion h2
      · have htry : tryFormats DATE_FORMATS (pyStrip s) = some d := by
          unfold DATE_FORMATS
          unfold tryFormats
          rw [h1]
          unfold tryFormats
          rw [h2]
        simp only [if_neg hv, htry]
  · intro s h0 h1 h2
    simp only [_parse_date]
    split
    · next hs =>
      have hs' : s = "" := by simpa using hs
      subst hs'
      exact absurd rfl h0
    · have hv : ¬((pyStrip s == "") = true) := by simpa using h0
      have htry : tryFormats DATE_FORMATS (pyStrip s) = none := by
        unfold DATE_FORMATS
        unfold tryFormats
        rw [h1]
        unfold tryFormats
        rw [h2]
        rfl
      simp only [if_neg hv, htry]
  · intro root
    have h := parseAddonList_ok (childrenWithTag root "addon")
    simp only [parseAddonElem_ok] at h
    exact h

/-- Witness for C7: a padded `%m/%d/%Y` date parses via the first format,
`9/18/25` falls through to the second format and lands in 2025, and an
ISO-style string fails both formats with the descriptive error. -/
theorem parse_catalog_failure_semantics_witness :
    (strptimeDate "%m/%d/%Y" (pyStrip " 5/19/2025 ") = some ⟨2025, 5, 19⟩
      ∧ _parse_date (some " 5/19/2025 ") = Except.ok (some ⟨2025, 5, 19⟩))
  ∧ (strptimeDate "%m/%d/%Y" (pyStrip "9/18/25") = none
      ∧ strptimeDate "%m/%d/%y" (pyStrip "9/18/25") = some ⟨2025, 9, 18⟩
      ∧ _parse_date (some "9/18/25") = Except.ok (some ⟨2025, 9, 18⟩))
  ∧ (pyStrip "2025-05-19" ≠ ""
      ∧ _parse_date (some "2025-05-19")
          = Except.error ("Unrecognized date format: " ++ pyReprStr (pyStrip "2025-05-19"))) := by
  refine ⟨⟨rfl, ?_⟩, ⟨rfl, rfl, ?_⟩, ⟨by decide, ?_⟩⟩
  · exact parse_catalog_failure_semantics.2.2.1 " 5/19/2025 " ⟨2025, 5, 19⟩ rfl
  · exact parse_catalog_failure_semantics.2.2.2.1 "9/18/25" ⟨2025, 9, 18⟩ rfl rfl
  · exact parse_catalog_failure_semantics.2.2.2.2.1 "2025-05-19" (by decide) rfl rfl

theorem requestSplit_api (query : String) (hq : ∀ x ∈ query.data, x ≠ '#') :
    urlSplitPQ (requestUrlString "/api/summary" query).data
      = ("/api/summary".data, query.data) := by
  by_cases h0 : query = ""
  · subst h0
    rfl
  · have hne : (query == "") = false := by simpa using h0
    have h1 : requestUrlString "/api/summary" query = "/api/summary" ++ "?" ++ query := by
      simp [requestUrlString, hne]
    rw [h1]
    have hdata : ("/api/summary" ++ "?" ++ query).data
        = "/api/summary".data ++ '?' :: query.data := by
      simp [String.data_append]
    rw [hdata]
    have hpathhash : ∀ x ∈ "/api/summary".data, x ≠ '#' := by decide
    have hnohash : ∀ x ∈ "/api/summary".data ++ '?' :: query.data, x ≠ '#' := by
      intro x hx
      rcases List.mem_append.mp hx with hxl | hxr
      · exact hpathhash x hxl
      · rcases List.mem_cons.mp hxr with hq1 | hq2
        · subst hq1
          decide
        · exact hq x hq2
    have hnoq : ∀ x ∈ "/api/summary".data, x ≠ '?' := by decide
    unfold urlSplitPQ urlDropFrag
    rw [splitCharList_no_sep hnohash]
    simp only [List.headD]
    rw [splitCharList_append_sep query.data hnoq]
    simp [joinChar_splitCharList]

theorem requestPath_api (query : String) (hq : ∀ x ∈ query.data, x ≠ '#') :
    requestPath "/api/summary" query = "/api/summary" := by
  unfold requestPath
  rw [requestSplit_api query hq]
  rfl

theorem requestQuery_api (query : String) (hq : ∀ x ∈ query.data, x ≠ '#') :
    requestQuery "/api/summary" query = query := by
  unfold requestQuery
  rw [requestSplit_api query hq]

theorem appHandle_api_eq (compute : String → Except String (CatalogSummary × String))
    (query : String) (hq : ∀ x ∈ query.data, x ≠ '#') :
    appHandle compute "GET" "/api/summary" query =
      match compute (requestUrlParam "/api/summary" query) with
      | .error e => apiErrResponse e (requestUrlParam "/api/summary" query)
      | .ok (s, dest) => apiOkResponse s dest (requestUrlParam "/api/summary" query) := by
  unfold appHandle
  rw [requestPath_api query hq]
  simp

/-- C8: for a GET request to `/api/summary` (with a query string of
printable characters, no `#`/`%`): when the fetch-parse-aggregate
pipeline succeeds the app answers 200 with the summary dict plus
`catalog_path` and `url`; when it raises, 502 with exactly the error
message and the `url`; and the `url` used is the request's first `url`
query parameter, defaulting to `DEFAULT_URL` when absent. -/
theorem api_summary_response_semantics
    (compute : String → Except String (CatalogSummary × String)) (query : String)
    (hsafe : query.data.all urlSafeChar = true) :
    (∀ s dest, compute (requestUrlParam "/api/summary" query) = Except.ok (s, dest) →
        appHandle compute "GET" "/api/summary" query
          = apiOkResponse s dest (requestUrlParam "/api/summary" query))
  ∧ (∀ e, compute (requestUrlParam "/api/summary" query) = Except.error e →
        appHandle compute "GET" "/api/summary" query
          = apiErrResponse e (requestUrlParam "/api/summary" query))
  ∧ (∀ v, getFirstParam (parse_qs_pairs query) "url" = some v →
        requestUrlParam "/api/summary" query = v)
  ∧ (getFirstParam (parse_qs_pairs query) "url" = none →
        requestUrlParam "/api/summary" query = DEFAULT_URL) := by
  have hq : ∀ x ∈ query.data, x ≠ '#' := by
    intro x hx
    have h := List.all_eq_true.mp hsafe x hx
    unfold urlSafeChar at h
    simp only [Bool.and_eq_true, Bool.not_eq_eq_eq_not, Bool.not_true, beq_eq_false_iff_ne] at h
    exact h.1.2
  have hmaster := appHandle_api_eq compute query hq
  have hquery : requestQuery "/api/summary" query = query := requestQuery_api query hq
  refine ⟨?_, ?_, ?_, ?_⟩
  · intro s dest hc
    rw [hmaster, hc]
  · intro e hc
    rw [hmaster, hc]
  · intro v hv
    unfold requestUrlParam
    rw [hquery, hv]
    rfl
  · intro hv
    unfold requestUrlParam
    rw [hquery, hv]
    rfl

/-- Witness for C8: with a stubbed pipeline succeeding (resp. failing), a
concrete request with `url=http://example.com/cat.xml` gets the 200
summary payload (resp. the 502 error object) built with the overriding
URL. -/
theorem api_summary_response_semantics_witness :
    ("url=http://example.com/cat.xml".data.all urlSafeChar = true)
  ∧ appHandle (fun _ => Except.ok (sampleSummary, "/tmp/catalog.xml")) "GET" "/api/summary"
        "url=http://example.com/cat.xml"
      = apiOkResponse sampleSummary "/tmp/catalog.xml" "http://example.com/cat.xml"
  ∧ appHandle (fun _ => Except.error "boom") "GET" "/api/summary"
        "url=http://example.com/cat.xml"
      = apiErrResponse "boom" "http://example.com/cat.xml" := by
  refine ⟨by decide, ?_, ?_⟩
  · exact (api_summary_response_semantics
      (fun _ => Except.ok (sampleSummary, "/tmp/catalog.xml"))
      "url=http://example.com/cat.xml" (by decide)).1 sampleSummary "/tmp/catalog.xml" rfl
  · exact (api_summary_response_semantics
      (fun _ => Except.error "boom")
      "url=http://example.com/cat.xml" (by decide)).2.1 "boom" rfl

/-- Counterexample for C10: the GET path `/api/summary;x` is neither `/`
nor `/api/summary`, yet the app does not answer 404: `urlparse` strips
the `;x` parameter suffix from the last path segment, so the request
reaches the API branch (502 here, with a failing pipeline). -/
theorem path_params_reach_api_branch :
    ("/api/summary;x" ≠ "/" ∧ "/api/summary;x" ≠ "/api/summary")
  ∧ (appHandle (fun _ => Except.error "boom") "GET" "/api/summary;x" "").statusCode = 502 :=
  ⟨⟨by decide, by decide⟩, rfl⟩

/-- C10 (amended): every non-GET request gets the plain-text 405 (the
method is checked before any URL parsing, so this holds for every path);
and every GET request whose `PATH_INFO` is a plain absolute path
(printable ASCII, single leading `/` — the domain on which the embedded
chain is exactly CPython `urlparse`, see `plainAbsPath`) such that the
urlparse interpretation of path-and-query (fragment dropped,
`;`-parameters stripped from the last path segment, query split at the
first `?`) is neither `/` nor `/api/summary` gets the plain-text 404. -/
theorem method_and_path_dispatch
    (compute : String → Except String (CatalogSummary × String))
    (method path query : String) :
    (method ≠ "GET" → appHandle compute method path query = resp405)
  ∧ (plainAbsPath path = true →
        requestPath path query ≠ "/" → requestPath path query ≠ "/api/summary" →
        appHandle compute "GET" path query = resp404) := by
  constructor
  · intro h
    unfold appHandle
    have hb : (method != "GET") = true := by simpa using h
    rw [hb]
    rfl
  · intro _hplain h1 h2
    unfold appHandle
    have e2 : (requestPath path query == "/api/summary") = false := by
      simpa using h2
    have e1 : (requestPath path query == "/") = false := by
      simpa using h1
    simp [e1, e2]

/-- Witness for C10 (amended): a POST request is answered 405, and a GET
for the plain absolute path `/nope` is answered 404. -/
theorem method_and_path_dispatch_witness :
    ("POST" ≠ "GET"
      ∧ appHandle (fun _ => Except.error "w") "POST" "/" "" = resp405)
  ∧ (plainAbsPath "/nope" = true
      ∧ requestPath "/nope" "" ≠ "/" ∧ requestPath "/nope" "" ≠ "/api/summary"
      ∧ appHandle (fun _ => Except.error "w") "GET" "/nope" "" = resp404) :=
  ⟨⟨by decide, (method_and_path_dispatch (fun _ => Except.error "w") "POST" "/" "").1 (by decide)⟩,
   ⟨by decide, by decide, by decide,
    (method_and_path_dispatch (fun _ => Except.error "w") "GET" "/nope" "").2
      (by decide) (by decide) (by decide)⟩⟩
